import Mathlib

/-!
Shallow embedding of the shard coordination engine (shardman).

Source files embedded:
  * `shardman/models.py` — the `Shard` document,
  * `shardman/requests.py` — the `Heartbeat`, `SessionID` and `Register` request bodies,
  * `shardman/__init__.py` — the `connect`, `beat`, `disconnect` and `re_register`
    endpoint handlers together with the module-level admission state
    (`next_halt_time`, `left_before_halt`).

Timestamps (`datetime`) are embedded as integers counting seconds;
`timedelta(seconds=5)` becomes the literal `5`.  Session tokens (`ulid` strings)
are embedded as naturals minted from a monotone counter held in the state, which
captures exactly the property the coordination logic relies on: every minted
token is fresh.  The Mongo collection of `Shard` documents is embedded as a list
of records; `Shard.count()` is its length, `Shard.find_one` is `List.find?`,
`insert` appends, `save` rewrites the found document in place, `delete` removes
it.  HTTP error responses are embedded as an error type carried by `Except`.
-/

/-- `shardman/models.py` `Shard`: one document per currently-registered shard.
`guild_count`, `latency` and `extra` are the informational fields written by the
`beat` handler. -/
structure Shard where
  shard_id : Nat
  last_beat : Int
  session_id : Nat
  guild_count : Option Int
  latency : Option Int
  extra : Option Int
  deriving Repr, DecidableEq

/-- `shardman/requests.py` `Heartbeat` request body. -/
structure Heartbeat where
  session_id : Nat
  guild_count : Option Int
  latency : Option Int
  extra : Option Int
  deriving Repr, DecidableEq

/-- `shardman/requests.py` `SessionID` request body. -/
structure SessionID where
  session_id : Nat
  deriving Repr, DecidableEq

/-- `shardman/requests.py` `Register` request body. -/
structure Register where
  shard_id : Nat
  max_shards : Nat
  active : Bool
  deriving Repr, DecidableEq

/-- `shardman/responses.py` `ConnectConfirmed` (file not under `src/`); its four
fields are read off the constructor calls in `connect` and `re_register`. -/
structure ConnectConfirmed where
  shard_id : Nat
  max_shards : Nat
  session_id : Nat
  sleep_duration : Int
  deriving Repr, DecidableEq

/-- The HTTP error responses raised by the handlers, by status code and detail:
401 "No Shards Available", 404 "Session Not Found", 409 "Shard Not Available",
412 "Max Shards Mismatch". -/
inductive Err where
  | noShardsAvailable
  | sessionNotFound
  | shardNotAvailable
  | maxShardsMismatch
  deriving Repr, DecidableEq

/-- The coordinator's mutable state: the `Shard` collection, the cached
`state.total_shards`, the module globals `next_halt_time` (None ↦ `none`) and
`left_before_halt`, and the token-minting counter standing for `ulid.new()`. -/
structure ServerState where
  shards : List Shard
  total_shards : Nat
  next_halt_time : Option Int
  left_before_halt : Int
  next_token : Nat
  deriving Repr, DecidableEq

/-- The `shard_id` fields of the live records, in collection order. -/
def liveIds (l : List Shard) : List Nat := l.map (fun sh => sh.shard_id)

/-- Ascending scan for the first identity `i` with `i ∉ live`, starting at `i`
with `fuel` identities left to try. -/
def scanFree (live : List Nat) : Nat → Nat → Option Nat
  | _, 0 => none
  | i, fuel + 1 => if i ∈ live then scanFree live (i + 1) fuel else some i

/-- Modelled from the spec: `StateManager.get_shard_id` lives in
`shardman/state.py`, which is not under `src/`.  Per the spec it "scans
identities `0..total_shards-1` in ascending order and returns the first value
not present among live records' `identity` fields". -/
def get_shard_id (total : Nat) (live : List Nat) : Option Nat :=
  scanFree live 0 total

/-- Modelled from the spec: `StateManager.get_missing_shards` lives in
`shardman/state.py`, which is not under `src/`.  Per the spec,
`missing_identities()` is "the complement of live identities within
`[0, total_shards)`". -/
def get_missing_shards (total : Nat) (live : List Nat) : List Nat :=
  (List.range total).filter (fun i => decide (i ∉ live))

/-- The window-reset test of `connect`: `not next_halt_time or
next_halt_time < last_beat`, where `last_beat` is the arrival time. -/
def windowReset (nht : Option Int) (now : Int) : Bool :=
  match nht with
  | none => true
  | some w => decide (w < now)

/-- The `connect` handler (`shardman/__init__.py`, lines 67–101).  `now` is the
value `datetime.now()` returns during the call. -/
def connect (s : ServerState) (now : Int) :
    Except Err (ConnectConfirmed × ServerState) :=
  if s.total_shards ≤ s.shards.length then
    .error .noShardsAvailable
  else
    let shard_id := (get_shard_id s.total_shards (liveIds s.shards)).getD 0
    let session_id := s.next_token
    let nht1 : Int :=
      if windowReset s.next_halt_time now then now + 5 else s.next_halt_time.getD 0
    let left1 : Int :=
      if windowReset s.next_halt_time now then 5 else s.left_before_halt
    let sleep_duration : Int := if left1 ≤ 0 then 5 else 0
    let last_beat : Int := if left1 ≤ 0 then now + 5 else now
    let left2 : Int := (if left1 ≤ 0 then (5 : Int) else left1) - 1
    let shard : Shard := ⟨shard_id, last_beat, session_id, none, none, none⟩
    .ok (⟨shard_id, s.total_shards, session_id, sleep_duration⟩,
      { s with
          shards := s.shards ++ [shard],
          next_halt_time := some nht1,
          left_before_halt := left2,
          next_token := s.next_token + 1 })

/-- Rewrite the first list element satisfying `p` through `f`; the embedding of
`find_one` followed by `save` on the found document. -/
def updateFirst (p : Shard → Bool) (f : Shard → Shard) : List Shard → List Shard
  | [] => []
  | x :: xs => if p x then f x :: xs else x :: updateFirst p f xs

/-- Remove the first list element satisfying `p`; the embedding of `find_one`
followed by `delete`. -/
def eraseFirst (p : Shard → Bool) : List Shard → List Shard
  | [] => []
  | x :: xs => if p x then xs else x :: eraseFirst p xs

/-- The `beat` handler (`shardman/__init__.py`, lines 114–125). -/
def beat (s : ServerState) (hb : Heartbeat) (now : Int) : Except Err ServerState :=
  match s.shards.find? (fun sh => sh.session_id == hb.session_id) with
  | none => .error .sessionNotFound
  | some sh =>
    if s.total_shards ≤ sh.shard_id then
      .error .noShardsAvailable
    else
      .ok { s with
        shards := updateFirst (fun x => x.session_id == hb.session_id)
          (fun x => { x with
            last_beat := now,
            guild_count := hb.guild_count,
            latency := hb.latency,
            extra := hb.extra }) s.shards }

/-- The `disconnect` handler (`shardman/__init__.py`, lines 137–142). -/
def disconnect (s : ServerState) (req : SessionID) : Except Err ServerState :=
  match s.shards.find? (fun sh => sh.session_id == req.session_id) with
  | none => .error .sessionNotFound
  | some _ =>
    .ok { s with
      shards := eraseFirst (fun sh => sh.session_id == req.session_id) s.shards }

/-- The `re_register` handler (`shardman/__init__.py`, lines 166–190). -/
def re_register (s : ServerState) (p : Register) (now : Int) :
    Except Err (ConnectConfirmed × ServerState) :=
  let missing := get_missing_shards s.total_shards (liveIds s.shards)
  if p.shard_id ∉ missing then
    .error .shardNotAvailable
  else if p.max_shards ≠ s.total_shards then
    .error .maxShardsMismatch
  else
    let session_id := s.next_token
    let shard : Shard := ⟨p.shard_id, now, session_id, none, none, none⟩
    .ok (⟨p.shard_id, s.total_shards, session_id, 0⟩,
      { s with
          shards := s.shards ++ [shard],
          next_token := s.next_token + 1 })

/-! ### Properties of the identity scan -/

lemma scanFree_eq_some (live : List Nat) :
    ∀ (fuel i m : Nat), scanFree live i fuel = some m →
      i ≤ m ∧ m < i + fuel ∧ m ∉ live ∧ ∀ j, i ≤ j → j < m → j ∈ live := by
  intro fuel
  induction fuel with
  | zero => intro i m h; simp [scanFree] at h
  | succ k ih =>
    intro i m h
    by_cases hc : i ∈ live
    · rw [scanFree, if_pos hc] at h
      obtain ⟨h1, h2, h3, h4⟩ := ih (i + 1) m h
      refine ⟨by omega, by omega, h3, ?_⟩
      intro j hj1 hj2
      rcases Nat.eq_or_lt_of_le hj1 with rfl | hlt
      · exact hc
      · exact h4 j hlt hj2
    · rw [scanFree, if_neg hc] at h
      cases h
      exact ⟨Nat.le_refl _, by omega, hc, by omega⟩

lemma scanFree_eq_none (live : List Nat) :
    ∀ (fuel i : Nat), scanFree live i fuel = none →
      ∀ j, i ≤ j → j < i + fuel → j ∈ live := by
  intro fuel
  induction fuel with
  | zero => intro i _ j hj1 hj2; omega
  | succ k ih =>
    intro i h j hj1 hj2
    by_cases hc : i ∈ live
    · rw [scanFree, if_pos hc] at h
      rcases Nat.eq_or_lt_of_le hj1 with rfl | hlt
      · exact hc
      · exact ih (i + 1) h j hlt (by omega)
    · rw [scanFree, if_neg hc] at h
      cases h

lemma get_shard_id_isSome (live : List Nat) (total : Nat)
    (h : live.length < total) : ∃ m, get_shard_id total live = some m := by
  cases hg : get_shard_id total live with
  | some m => exact ⟨m, rfl⟩
  | none =>
    exfalso
    have hall : ∀ j, j < total → j ∈ live := fun j hj =>
      scanFree_eq_none live total 0 hg j (Nat.zero_le _) (by omega)
    have hsub : Finset.range total ⊆ live.toFinset := by
      intro j hj
      rw [List.mem_toFinset]
      exact hall j (Finset.mem_range.mp hj)
    have h1 := Finset.card_le_card hsub
    rw [Finset.card_range] at h1
    have h2 := live.toFinset_card_le
    omega

lemma get_shard_id_eq (live : List Nat) (total m : Nat)
    (h1 : m < total) (h2 : m ∉ live) (h3 : ∀ j, j < m → j ∈ live) :
    get_shard_id total live = some m := by
  obtain ⟨m', hm'⟩ : ∃ m', get_shard_id total live = some m' := by
    cases hg : get_shard_id total live with
    | some m' => exact ⟨m', rfl⟩
    | none =>
      exact absurd (scanFree_eq_none live total 0 hg m (Nat.zero_le _) (by omega)) h2
  obtain ⟨_, _, hnotin, hmin⟩ := scanFree_eq_some live total 0 m' hm'
  have : m' = m := by
    rcases Nat.lt_trichotomy m' m with hlt | heq | hgt
    · exact absurd (h3 m' hlt) hnotin
    · exact heq
    · exact absurd (hmin m (Nat.zero_le _) hgt) h2
  rw [hm', this]

/-! ### The three admission regimes of `connect` -/

/-- The identity `connect` allocates: `state.get_shard_id()`, with a default
that is never reached when the fleet has room. -/
def allocId (s : ServerState) : Nat :=
  (get_shard_id s.total_shards (liveIds s.shards)).getD 0

lemma connect_fresh_window (s : ServerState) (now : Int)
    (hcap : s.shards.length < s.total_shards)
    (hw : windowReset s.next_halt_time now = true) :
    connect s now = .ok (⟨allocId s, s.total_shards, s.next_token, 0⟩,
      { s with
          shards := s.shards ++ [⟨allocId s, now, s.next_token, none, none, none⟩],
          next_halt_time := some (now + 5),
          left_before_halt := 4,
          next_token := s.next_token + 1 }) := by
  have hns : ¬ s.total_shards ≤ s.shards.length := by omega
  simp [connect, allocId, hw, hns]

lemma connect_mid_window (s : ServerState) (now w : Int)
    (hcap : s.shards.length < s.total_shards)
    (hw : s.next_halt_time = some w) (hnow : ¬ w < now)
    (hleft : 0 < s.left_before_halt) :
    connect s now = .ok (⟨allocId s, s.total_shards, s.next_token, 0⟩,
      { s with
          shards := s.shards ++ [⟨allocId s, now, s.next_token, none, none, none⟩],
          next_halt_time := some w,
          left_before_halt := s.left_before_halt - 1,
          next_token := s.next_token + 1 }) := by
  have hns : ¬ s.total_shards ≤ s.shards.length := by omega
  have hreset : windowReset (some w) now = false := by
    simp [windowReset, hnow]
  have hpos : ¬ s.left_before_halt ≤ 0 := by omega
  simp [connect, allocId, hreset, hns, hw, hpos]

lemma connect_throttled (s : ServerState) (now w : Int)
    (hcap : s.shards.length < s.total_shards)
    (hw : s.next_halt_time = some w) (hnow : ¬ w < now)
    (hleft : s.left_before_halt ≤ 0) :
    connect s now = .ok (⟨allocId s, s.total_shards, s.next_token, 5⟩,
      { s with
          shards := s.shards ++ [⟨allocId s, now + 5, s.next_token, none, none, none⟩],
          next_halt_time := some w,
          left_before_halt := 4,
          next_token := s.next_token + 1 }) := by
  have hns : ¬ s.total_shards ≤ s.shards.length := by omega
  have hreset : windowReset (some w) now = false := by
    simp [windowReset, hnow]
  simp [connect, allocId, hreset, hns, hw, hleft]

lemma connect_ok_shape (s : ServerState) (now : Int)
    (h : s.shards.length < s.total_shards) :
    ∃ sl s2, connect s now = .ok (⟨allocId s, s.total_shards, s.next_token, sl⟩, s2) := by
  cases hnht : s.next_halt_time with
  | none =>
    exact ⟨_, _, connect_fresh_window s now h (by simp [windowReset, hnht])⟩
  | some w =>
    by_cases hlt : w < now
    · exact ⟨_, _, connect_fresh_window s now h (by simp [windowReset, hnht, hlt])⟩
    · by_cases hl : s.left_before_halt ≤ 0
      · exact ⟨_, _, connect_throttled s now w h hnht hlt hl⟩
      · exact ⟨_, _, connect_mid_window s now w h hnht hlt (by omega)⟩

lemma allocId_spec (s : ServerState) (h : s.shards.length < s.total_shards) :
    allocId s < s.total_shards ∧ allocId s ∉ liveIds s.shards ∧
      ∀ j, j < allocId s → j ∈ liveIds s.shards := by
  have hlen : (liveIds s.shards).length = s.shards.length := List.length_map _ _
  obtain ⟨m, hm⟩ := get_shard_id_isSome (liveIds s.shards) s.total_shards (by omega)
  obtain ⟨_, h2, h3, h4⟩ := scanFree_eq_some (liveIds s.shards) s.total_shards 0 m hm
  rw [allocId, hm]
  exact ⟨by simpa using h2, h3, fun j hj => h4 j (Nat.zero_le _) hj⟩

/-! ### Concrete states used to exercise the theorems -/

/-- A fleet of size 1 that is already full. -/
def fullState : ServerState := ⟨[⟨0, 0, 100, none, none, none⟩], 1, none, 5, 101⟩

/-- An empty fleet of size 1 with room for one shard. -/
def roomState : ServerState := ⟨[], 1, none, 5, 100⟩

/-- The spec's allocator example: live identities `{0, 2, 3}`, `total_shards = 5`. -/
def allocState : ServerState :=
  ⟨[⟨0, 0, 100, none, none, none⟩, ⟨2, 0, 101, none, none, none⟩,
    ⟨3, 0, 102, none, none, none⟩], 5, none, 5, 103⟩

/-! ### Claims -/

/-- C1: a `Connect()` call fails with `FleetFull` (HTTP 401 "No Shards
Available") exactly when the count of live records is at least `total_shards`;
on that failure no record is inserted and no identity allocated (the handler
raises before touching any state), and when the count is below `total_shards`
the call never fails with `FleetFull`. -/
theorem connect_fleet_full (s : ServerState) (now : Int) :
    (s.total_shards ≤ s.shards.length →
      connect s now = .error .noShardsAvailable) ∧
    (s.shards.length < s.total_shards →
      ∃ r s2, connect s now = .ok (r, s2)) := by
  constructor
  · intro h
    simp [connect, h]
  · intro h
    obtain ⟨sl, s2, heq⟩ := connect_ok_shape s now h
    exact ⟨_, _, heq⟩

/-- Witness for C1: with one live record and `total_shards = 1` the call fails
with 401; with no live record and `total_shards = 1` it succeeds. -/
theorem connect_fleet_full_witness :
    connect fullState 0 = .error .noShardsAvailable ∧
    (∃ r s2, connect roomState 0 = .ok (r, s2)) :=
  ⟨(connect_fleet_full fullState 0).1 (by decide),
   (connect_fleet_full roomState 0).2 (by decide)⟩

/-- C2: when the live count is below `total_shards`, the identity returned by a
successful `Connect()` is the smallest integer in `[0, total_shards)` not among
the live records' identities. -/
theorem connect_lowest_free_identity (s : ServerState) (now : Int)
    (h : s.shards.length < s.total_shards) :
    ∃ r s2, connect s now = .ok (r, s2) ∧
      r.shard_id < s.total_shards ∧
      r.shard_id ∉ liveIds s.shards ∧
      ∀ j, j < r.shard_id → j ∈ liveIds s.shards := by
  obtain ⟨sl, s2, heq⟩ := connect_ok_shape s now h
  obtain ⟨h1, h2, h3⟩ := allocId_spec s h
  exact ⟨_, _, heq, h1, h2, h3⟩

/-- Witness for C2, the spec's example: live identities `{0, 2, 3}` with
`total_shards = 5`; the allocated identity is `1`. -/
theorem connect_lowest_free_identity_witness :
    (∃ r s2, connect allocState 0 = .ok (r, s2) ∧
      r.shard_id < allocState.total_shards ∧
      r.shard_id ∉ liveIds allocState.shards ∧
      ∀ j, j < r.shard_id → j ∈ liveIds allocState.shards) ∧
    connect allocState 0 = .ok (⟨1, 5, 103, 0⟩,
      ⟨[⟨0, 0, 100, none, none, none⟩, ⟨2, 0, 101, none, none, none⟩,
        ⟨3, 0, 102, none, none, none⟩, ⟨1, 0, 103, none, none, none⟩],
       5, some 5, 4, 104⟩) :=
  ⟨connect_lowest_free_identity allocState 0 (by decide), rfl⟩

lemma connect_fresh_window_ex (s : ServerState) (now : Int)
    (hcap : s.shards.length < s.total_shards)
    (hw : windowReset s.next_halt_time now = true) :
    ∃ r s2, connect s now = .ok (r, s2) ∧ r.sleep_duration = 0 ∧
      s2.total_shards = s.total_shards ∧
      s2.next_halt_time = some (now + 5) ∧
      s2.left_before_halt = 4 ∧
      s2.shards.length = s.shards.length + 1 ∧
      s2.shards.getLast? = some ⟨r.shard_id, now, r.session_id, none, none, none⟩ :=
  ⟨_, _, connect_fresh_window s now hcap hw, rfl, rfl, rfl, rfl, by simp, by simp⟩

lemma connect_mid_window_ex (s : ServerState) (now w : Int)
    (hcap : s.shards.length < s.total_shards)
    (hw : s.next_halt_time = some w) (hnow : ¬ w < now)
    (hleft : 0 < s.left_before_halt) :
    ∃ r s2, connect s now = .ok (r, s2) ∧ r.sleep_duration = 0 ∧
      s2.total_shards = s.total_shards ∧
      s2.next_halt_time = some w ∧
      s2.left_before_halt = s.left_before_halt - 1 ∧
      s2.shards.length = s.shards.length + 1 ∧
      s2.shards.getLast? = some ⟨r.shard_id, now, r.session_id, none, none, none⟩ :=
  ⟨_, _, connect_mid_window s now w hcap hw hnow hleft, rfl, rfl, rfl, rfl, by simp,
    by simp⟩

lemma connect_throttled_ex (s : ServerState) (now w : Int)
    (hcap : s.shards.length < s.total_shards)
    (hw : s.next_halt_time = some w) (hnow : ¬ w < now)
    (hleft : s.left_before_halt ≤ 0) :
    ∃ r s2, connect s now = .ok (r, s2) ∧ r.sleep_duration = 5 ∧
      s2.total_shards = s.total_shards ∧
      s2.next_halt_time = some w ∧
      s2.left_before_halt = 4 ∧
      s2.shards.length = s.shards.length + 1 ∧
      s2.shards.getLast? =
        some ⟨r.shard_id, now + 5, r.session_id, none, none, none⟩ :=
  ⟨_, _, connect_throttled s now w hcap hw hnow hleft, rfl, rfl, rfl, rfl, by simp,
    by simp⟩

/-- C3: when a `Connect()` call opens a new admission window (no window active
or the previous one over) and the fleet has room for six shards, then among it
and five further calls arriving no later than the window end `t1 + 5`, the
first `bucket_size = 5` calls each receive `wait_duration = 0` and the sixth
receives `wait_duration = window_length = 5`, with the record it creates
timestamped `t6 + 5`, one window later than its actual arrival time `t6`. -/
theorem admission_first_window (s0 : ServerState) (t1 t2 t3 t4 t5 t6 : Int)
    (hcap : s0.shards.length + 6 ≤ s0.total_shards)
    (hfresh : windowReset s0.next_halt_time t1 = true)
    (h2 : t2 ≤ t1 + 5) (h3 : t3 ≤ t1 + 5) (h4 : t4 ≤ t1 + 5)
    (h5 : t5 ≤ t1 + 5) (h6 : t6 ≤ t1 + 5) :
    ∃ r1 s1 r2 s2 r3 s3 r4 s4 r5 s5 r6 s6,
      connect s0 t1 = .ok (r1, s1) ∧
      connect s1 t2 = .ok (r2, s2) ∧
      connect s2 t3 = .ok (r3, s3) ∧
      connect s3 t4 = .ok (r4, s4) ∧
      connect s4 t5 = .ok (r5, s5) ∧
      connect s5 t6 = .ok (r6, s6) ∧
      r1.sleep_duration = 0 ∧ r2.sleep_duration = 0 ∧ r3.sleep_duration = 0 ∧
      r4.sleep_duration = 0 ∧ r5.sleep_duration = 0 ∧
      r6.sleep_duration = 5 ∧
      s6.shards.getLast? = some ⟨r6.shard_id, t6 + 5, r6.session_id,
        none, none, none⟩ := by
  obtain ⟨r1, s1, e1, d1, ht1, hw1, hl1, hlen1, hg1⟩ :=
    connect_fresh_window_ex s0 t1 (by omega) hfresh
  obtain ⟨r2, s2, e2, d2, ht2, hw2, hl2, hlen2, hg2⟩ :=
    connect_mid_window_ex s1 t2 (t1 + 5) (by omega) hw1 (by omega) (by omega)
  obtain ⟨r3, s3, e3, d3, ht3, hw3, hl3, hlen3, hg3⟩ :=
    connect_mid_window_ex s2 t3 (t1 + 5) (by omega) hw2 (by omega) (by omega)
  obtain ⟨r4, s4, e4, d4, ht4, hw4, hl4, hlen4, hg4⟩ :=
    connect_mid_window_ex s3 t4 (t1 + 5) (by omega) hw3 (by omega) (by omega)
  obtain ⟨r5, s5, e5, d5, ht5, hw5, hl5, hlen5, hg5⟩ :=
    connect_mid_window_ex s4 t5 (t1 + 5) (by omega) hw4 (by omega) (by omega)
  obtain ⟨r6, s6, e6, d6, ht6, hw6, hl6, hlen6, hg6⟩ :=
    connect_throttled_ex s5 t6 (t1 + 5) (by omega) hw5 (by omega) (by omega)
  exact ⟨r1, s1, r2, s2, r3, s3, r4, s4, r5, s5, r6, s6,
    e1, e2, e3, e4, e5, e6, d1, d2, d3, d4, d5, d6, hg6⟩

/-- Witness for C3: fleet size 6, calls at times 0, 1, 2, 3, 3, 4 — all within
the window `[0, 5]` opened by the first call. -/
theorem admission_first_window_witness :
    ∃ r1 s1 r2 s2 r3 s3 r4 s4 r5 s5 r6 s6,
      connect ⟨[], 6, none, 5, 0⟩ 0 = .ok (r1, s1) ∧
      connect s1 1 = .ok (r2, s2) ∧
      connect s2 2 = .ok (r3, s3) ∧
      connect s3 3 = .ok (r4, s4) ∧
      connect s4 3 = .ok (r5, s5) ∧
      connect s5 4 = .ok (r6, s6) ∧
      r1.sleep_duration = 0 ∧ r2.sleep_duration = 0 ∧ r3.sleep_duration = 0 ∧
      r4.sleep_duration = 0 ∧ r5.sleep_duration = 0 ∧
      r6.sleep_duration = 5 ∧
      s6.shards.getLast? = some ⟨r6.shard_id, 4 + 5, r6.session_id,
        none, none, none⟩ :=
  admission_first_window ⟨[], 6, none, 5, 0⟩ 0 1 2 3 3 4 (by decide) rfl
    (by decide) (by decide) (by decide) (by decide) (by decide)

/-- Counterexample for C4: a throttled `connect` (window active, no slots left)
leaves `left_before_halt = 4`, not `bucket_size = 5` — the unconditional
`left_before_halt -= 1` runs on the throttled path too, so the throttled call
does consume a slot. -/
theorem throttled_call_consumes_slot_cex :
    ∃ r s2, connect ⟨[⟨0, 0, 100, none, none, none⟩], 10, some 10, 0, 101⟩ 3 =
        .ok (r, s2) ∧
      r.sleep_duration = 5 ∧ s2.left_before_halt = 4 ∧
      ¬ s2.left_before_halt = 5 :=
  ⟨_, _, rfl, rfl, rfl, by decide⟩

/-- C4 (amended): a throttled `admit` resets `remaining_slots` to `bucket_size`
and then consumes one slot itself, so immediately after the throttled call
`remaining_slots = bucket_size - 1 = 4`; consequently only the next
`bucket_size - 1` calls within the same window receive `wait_duration = 0`, and
the call after those is throttled again. -/
theorem throttled_call_consumes_slot (s : ServerState) (now w u1 u2 u3 u4 u5 : Int)
    (hcap : s.shards.length + 6 ≤ s.total_shards)
    (hw : s.next_halt_time = some w) (hnow : ¬ w < now)
    (hleft : s.left_before_halt ≤ 0)
    (hu1 : ¬ w < u1) (hu2 : ¬ w < u2) (hu3 : ¬ w < u3) (hu4 : ¬ w < u4)
    (hu5 : ¬ w < u5) :
    ∃ r0 q0 r1 q1 r2 q2 r3 q3 r4 q4 r5 q5,
      connect s now = .ok (r0, q0) ∧ r0.sleep_duration = 5 ∧
      q0.left_before_halt = 4 ∧
      connect q0 u1 = .ok (r1, q1) ∧ r1.sleep_duration = 0 ∧
      connect q1 u2 = .ok (r2, q2) ∧ r2.sleep_duration = 0 ∧
      connect q2 u3 = .ok (r3, q3) ∧ r3.sleep_duration = 0 ∧
      connect q3 u4 = .ok (r4, q4) ∧ r4.sleep_duration = 0 ∧
      connect q4 u5 = .ok (r5, q5) ∧ r5.sleep_duration = 5 := by
  obtain ⟨r0, q0, e0, d0, ht0, hw0, hl0, hlen0, hg0⟩ :=
    connect_throttled_ex s now w (by omega) hw hnow hleft
  obtain ⟨r1, q1, e1, d1, ht1, hw1, hl1, hlen1, hg1⟩ :=
    connect_mid_window_ex q0 u1 w (by omega) hw0 hu1 (by omega)
  obtain ⟨r2, q2, e2, d2, ht2, hw2, hl2, hlen2, hg2⟩ :=
    connect_mid_window_ex q1 u2 w (by omega) hw1 hu2 (by omega)
  obtain ⟨r3, q3, e3, d3, ht3, hw3, hl3, hlen3, hg3⟩ :=
    connect_mid_window_ex q2 u3 w (by omega) hw2 hu3 (by omega)
  obtain ⟨r4, q4, e4, d4, ht4, hw4, hl4, hlen4, hg4⟩ :=
    connect_mid_window_ex q3 u4 w (by omega) hw3 hu4 (by omega)
  obtain ⟨r5, q5, e5, d5, ht5, hw5, hl5, hlen5, hg5⟩ :=
    connect_throttled_ex q4 u5 w (by omega) hw4 hu5 (by omega)
  exact ⟨r0, q0, r1, q1, r2, q2, r3, q3, r4, q4, r5, q5,
    e0, d0, hl0, e1, d1, e2, d2, e3, d3, e4, d4, e5, d5⟩

/-- Witness for the amended C4: window ends at 10, every call arrives at time 3. -/
theorem throttled_call_consumes_slot_witness :
    ∃ r0 q0 r1 q1 r2 q2 r3 q3 r4 q4 r5 q5,
      connect ⟨[], 10, some 10, 0, 0⟩ 3 = .ok (r0, q0) ∧ r0.sleep_duration = 5 ∧
      q0.left_before_halt = 4 ∧
      connect q0 3 = .ok (r1, q1) ∧ r1.sleep_duration = 0 ∧
      connect q1 3 = .ok (r2, q2) ∧ r2.sleep_duration = 0 ∧
      connect q2 3 = .ok (r3, q3) ∧ r3.sleep_duration = 0 ∧
      connect q3 3 = .ok (r4, q4) ∧ r4.sleep_duration = 0 ∧
      connect q4 3 = .ok (r5, q5) ∧ r5.sleep_duration = 5 :=
  throttled_call_consumes_slot ⟨[], 10, some 10, 0, 0⟩ 3 10 3 3 3 3 3
    (by decide) rfl (by decide) (by decide) (by decide) (by decide) (by decide)
    (by decide) (by decide)

/-- Counterexample for C5: with the window ending exactly at the current time
(`now = window_end = 10`) and no slots left, `connect` does not start a new
window — `next_halt_time` stays `10` instead of becoming `now + 5`, and the
call is throttled with `wait_duration = 5` instead of admitted with `0`.  The
reset test is the strict `next_halt_time < last_beat`. -/
theorem window_boundary_cex :
    ∃ r s2, connect ⟨[], 3, some 10, 0, 50⟩ 10 = .ok (r, s2) ∧
      s2.next_halt_time = some 10 ∧ ¬ s2.next_halt_time = some (10 + 5) ∧
      r.sleep_duration = 5 ∧ ¬ r.sleep_duration = 0 :=
  ⟨_, _, rfl, rfl, by decide, rfl, by decide⟩

/-- C5 (amended): a new window (`window_end = now + 5`, `remaining_slots`
refilled to `bucket_size` and immediately decremented to `4` by the admitted
call, which gets `wait_duration = 0`) is started exactly when no window is
active or the current time is strictly after `window_end`; when the current
time is at or before `window_end` — including exactly at it — the window is
left in place. -/
theorem window_restart_strict (s : ServerState) (now : Int)
    (hcap : s.shards.length < s.total_shards) :
    ((s.next_halt_time = none ∨ (∃ w, s.next_halt_time = some w ∧ w < now)) →
      ∃ r s2, connect s now = .ok (r, s2) ∧ r.sleep_duration = 0 ∧
        s2.next_halt_time = some (now + 5) ∧ s2.left_before_halt = 4) ∧
    (∀ w, s.next_halt_time = some w → ¬ w < now →
      ∃ r s2, connect s now = .ok (r, s2) ∧ s2.next_halt_time = some w) := by
  constructor
  · intro hw
    have hreset : windowReset s.next_halt_time now = true := by
      rcases hw with hn | ⟨w, hsome, hlt⟩
      · simp [windowReset, hn]
      · simp [windowReset, hsome, hlt]
    obtain ⟨r, s2, e, d, _, hnht, hl, _, _⟩ := connect_fresh_window_ex s now hcap hreset
    exact ⟨r, s2, e, d, hnht, hl⟩
  · intro w hsome hnow
    by_cases hl : s.left_before_halt ≤ 0
    · obtain ⟨r, s2, e, _, _, hnht, _, _, _⟩ :=
        connect_throttled_ex s now w hcap hsome hnow hl
      exact ⟨r, s2, e, hnht⟩
    · obtain ⟨r, s2, e, _, _, hnht, _, _, _⟩ :=
        connect_mid_window_ex s now w hcap hsome hnow (by omega)
      exact ⟨r, s2, e, hnht⟩

/-- Witness for the amended C5: a call at time 7 with the last window long
over (`window_end = 2`) starts the window `[7, 12]`; a call at time 9 with
`window_end = 9` leaves the window as it is. -/
theorem window_restart_strict_witness :
    (∃ r s2, connect ⟨[], 2, some 2, 0, 0⟩ 7 = .ok (r, s2) ∧
      r.sleep_duration = 0 ∧ s2.next_halt_time = some (7 + 5) ∧
      s2.left_before_halt = 4) ∧
    (∃ r s2, connect ⟨[], 2, some 9, 3, 0⟩ 9 = .ok (r, s2) ∧
      s2.next_halt_time = some 9) :=
  ⟨(window_restart_strict ⟨[], 2, some 2, 0, 0⟩ 7 (by decide)).1
      (Or.inr ⟨2, rfl, by decide⟩),
   (window_restart_strict ⟨[], 2, some 9, 3, 0⟩ 9 (by decide)).2 9 rfl (by decide)⟩

/-- The spec's re-registration example: `total_shards = 5`, live identities
`{0, 1, 3}`. -/
def mState : ServerState :=
  ⟨[⟨0, 0, 100, none, none, none⟩, ⟨1, 0, 101, none, none, none⟩,
    ⟨3, 0, 102, none, none, none⟩], 5, none, 5, 103⟩

/-- C6: `re_register` checks its rules in order — it fails with
`IdentityNotAvailable` (409 "Shard Not Available") whenever the requested
identity is not among the missing identities, regardless of the claimed fleet
size; if the identity is missing but the claimed size differs from
`total_shards` it fails with `FleetSizeMismatch` (412 "Max Shards Mismatch");
otherwise it succeeds. -/
theorem re_register_rules (s : ServerState) (p : Register) (now : Int) :
    (p.shard_id ∉ get_missing_shards s.total_shards (liveIds s.shards) →
      re_register s p now = .error .shardNotAvailable) ∧
    (p.shard_id ∈ get_missing_shards s.total_shards (liveIds s.shards) →
      p.max_shards ≠ s.total_shards →
      re_register s p now = .error .maxShardsMismatch) ∧
    (p.shard_id ∈ get_missing_shards s.total_shards (liveIds s.shards) →
      p.max_shards = s.total_shards →
      ∃ r s2, re_register s p now = .ok (r, s2)) := by
  refine ⟨?_, ?_, ?_⟩
  · intro h
    simp [re_register, h]
  · intro h1 h2
    simp [re_register, h1, h2]
  · intro h1 h2
    refine ⟨⟨p.shard_id, s.total_shards, s.next_token, 0⟩,
      { s with
          shards := s.shards ++ [⟨p.shard_id, now, s.next_token, none, none, none⟩],
          next_token := s.next_token + 1 }, ?_⟩
    simp [re_register, h1, h2]

/-- Witness for C6, the spec's example: with live identities `{0, 1, 3}` and
`total_shards = 5`, reclaiming identity 2 with claimed size 5 succeeds,
identity 1 (live) is rejected with 409 even with the right size, and identity 2
with claimed size 6 is rejected with 412. -/
theorem re_register_rules_witness :
    (∃ r s2, re_register mState ⟨2, 5, true⟩ 0 = .ok (r, s2)) ∧
    re_register mState ⟨1, 5, true⟩ 0 = .error .shardNotAvailable ∧
    re_register mState ⟨2, 6, true⟩ 0 = .error .maxShardsMismatch :=
  ⟨(re_register_rules mState ⟨2, 5, true⟩ 0).2.2 (by decide) rfl,
   (re_register_rules mState ⟨1, 5, true⟩ 0).1 (by decide),
   (re_register_rules mState ⟨2, 6, true⟩ 0).2.1 (by decide) (by decide)⟩

/-- C7: a successful `re_register` appends exactly one fresh record at the
requested identity, carrying a newly minted session token (distinct from every
token already issued) and `last_beat = now`; the admission-window state
(`next_halt_time`, `left_before_halt`) is untouched — re-registration consumes
no admission slot. -/
theorem re_register_frame (s : ServerState) (p : Register) (now : Int)
    (r : ConnectConfirmed) (s2 : ServerState)
    (h : re_register s p now = .ok (r, s2)) :
    s2.next_halt_time = s.next_halt_time ∧
    s2.left_before_halt = s.left_before_halt ∧
    s2.total_shards = s.total_shards ∧
    r.session_id = s.next_token ∧
    s2.shards = s.shards ++ [⟨p.shard_id, now, s.next_token, none, none, none⟩] ∧
    s2.next_token = s.next_token + 1 ∧
    ∀ sh ∈ s.shards, sh.session_id < s.next_token →
      sh.session_id ≠ r.session_id := by
  simp only [re_register] at h
  split at h
  · cases h
  · split at h
    · cases h
    · injection h with h1
      injection h1 with hr hs
      subst hr
      subst hs
      refine ⟨rfl, rfl, rfl, rfl, rfl, rfl, ?_⟩
      intro sh _ hlt
      simp only [ne_eq]
      omega

/-- Witness for C7: the successful call of the C6 example leaves the window
state untouched and mints token 103. -/
theorem re_register_frame_witness :
    ∃ r s2, re_register mState ⟨2, 5, true⟩ 0 = .ok (r, s2) ∧
      s2.next_halt_time = mState.next_halt_time ∧
      s2.left_before_halt = mState.left_before_halt ∧
      r.session_id = mState.next_token ∧
      s2.shards = mState.shards ++ [⟨2, 0, 103, none, none, none⟩] := by
  refine ⟨_, _, rfl, ?_⟩
  have h := re_register_frame mState ⟨2, 5, true⟩ 0 _ _ rfl
  exact ⟨h.1, h.2.1, h.2.2.2.1, h.2.2.2.2.1⟩

/-! ### Heartbeat and disconnect -/

lemma updateFirst_length (p : Shard → Bool) (f : Shard → Shard) :
    ∀ l : List Shard, (updateFirst p f l).length = l.length := by
  intro l
  induction l with
  | nil => rfl
  | cons x xs ih => by_cases hp : p x <;> simp [updateFirst, hp, ih]

lemma updateFirst_get (p : Shard → Bool) (f : Shard → Shard) :
    ∀ (l : List Shard) (i : Nat) (hi : i < l.length)
      (hi2 : i < (updateFirst p f l).length),
      (updateFirst p f l).get ⟨i, hi2⟩ = l.get ⟨i, hi⟩ ∨
        ((updateFirst p f l).get ⟨i, hi2⟩ = f (l.get ⟨i, hi⟩) ∧
          p (l.get ⟨i, hi⟩) = true) := by
  intro l
  induction l with
  | nil => intro i hi _; simp at hi
  | cons x xs ih =>
    intro i hi hi2
    by_cases hp : p x
    · cases i with
      | zero => right; simp [updateFirst, hp]
      | succ j => left; simp [updateFirst, hp]
    · cases i with
      | zero => left; simp [updateFirst, hp]
      | succ j =>
        have hj : j < xs.length := by simpa using hi
        have hj2 : j < (updateFirst p f xs).length := by
          rw [updateFirst_length]; exact hj
        rcases ih j hj hj2 with hsame | ⟨hupd, hpt⟩
        · left; simpa [updateFirst, hp] using hsame
        · right
          refine ⟨?_, by simpa using hpt⟩
          simpa [updateFirst, hp] using hupd

/-- C8: a `Heartbeat` or `Disconnect` carrying a session token held by no live
record fails with `SessionNotFound` (404); the failing call returns before any
write, so the record set is untouched. -/
theorem unknown_session_rejected (s : ServerState) (t : Nat)
    (gc la ex : Option Int) (now : Int)
    (h : ∀ sh ∈ s.shards, sh.session_id ≠ t) :
    beat s ⟨t, gc, la, ex⟩ now = .error .sessionNotFound ∧
    disconnect s ⟨t⟩ = .error .sessionNotFound := by
  have hfind : s.shards.find? (fun sh => sh.session_id == t) = none := by
    rw [List.find?_eq_none]
    intro sh hmem
    simpa using h sh hmem
  constructor
  · simp [beat, hfind]
  · simp [disconnect, hfind]

/-- Witness for C8: token 999 is held by nobody in the three-shard example
fleet. -/
theorem unknown_session_rejected_witness :
    beat mState ⟨999, none, none, none⟩ 0 = .error .sessionNotFound ∧
    disconnect mState ⟨999⟩ = .error .sessionNotFound := by
  exact unknown_session_rejected mState 999 none none none 0 (by decide)

/-- C9: a successful `beat` never changes any record's `shard_id` or
`session_id`: the fleet keeps its size, every record keeps its identity and
token, records of other sessions are untouched entirely, and the coordinator's
other fields (`total_shards`, window state, token counter) are unchanged —
only `last_beat` and the informational metric fields of the target record are
written. -/
theorem beat_preserves_identity (s : ServerState) (hb : Heartbeat) (now : Int)
    (s2 : ServerState) (h : beat s hb now = .ok s2) :
    s2.total_shards = s.total_shards ∧
    s2.next_halt_time = s.next_halt_time ∧
    s2.left_before_halt = s.left_before_halt ∧
    s2.next_token = s.next_token ∧
    s2.shards.length = s.shards.length ∧
    ∀ i (hi : i < s.shards.length) (hi2 : i < s2.shards.length),
      (s2.shards.get ⟨i, hi2⟩).shard_id = (s.shards.get ⟨i, hi⟩).shard_id ∧
      (s2.shards.get ⟨i, hi2⟩).session_id = (s.shards.get ⟨i, hi⟩).session_id ∧
      ((s.shards.get ⟨i, hi⟩).session_id ≠ hb.session_id →
        s2.shards.get ⟨i, hi2⟩ = s.shards.get ⟨i, hi⟩) := by
  simp only [beat] at h
  split at h
  · cases h
  · split at h
    · cases h
    · injection h with hs
      subst hs
      refine ⟨rfl, rfl, rfl, rfl, updateFirst_length _ _ _, ?_⟩
      intro i hi hi2
      rcases updateFirst_get _ _ s.shards i hi hi2 with hsame | ⟨hupd, hpt⟩
      · rw [hsame]
        exact ⟨rfl, rfl, fun _ => rfl⟩
      · rw [hupd]
        refine ⟨rfl, rfl, ?_⟩
        intro hne
        exact absurd (by simpa using hpt) hne

/-- Witness for C9: a heartbeat for session 101 of the example fleet. -/
theorem beat_preserves_identity_witness :
    ∃ s2, beat mState ⟨101, some 7, some 3, none⟩ 42 = .ok s2 ∧
      s2.shards.length = mState.shards.length ∧
      ∀ i (hi : i < mState.shards.length) (hi2 : i < s2.shards.length),
        (s2.shards.get ⟨i, hi2⟩).shard_id = (mState.shards.get ⟨i, hi⟩).shard_id ∧
        (s2.shards.get ⟨i, hi2⟩).session_id =
          (mState.shards.get ⟨i, hi⟩).session_id := by
  refine ⟨_, rfl, ?_⟩
  have h := beat_preserves_identity mState ⟨101, some 7, some 3, none⟩ 42 _ rfl
  exact ⟨h.2.2.2.2.1, fun i hi hi2 => ⟨(h.2.2.2.2.2 i hi hi2).1, (h.2.2.2.2.2 i hi hi2).2.1⟩⟩

/-- C10: a heartbeat for a live record whose identity is out of range
(`shard_id ≥ total_shards`, e.g. after the fleet shrank) fails with 401
"No Shards Available" instead of succeeding; the handler raises before the
save, so `last_beat` is not refreshed. -/
theorem beat_out_of_range (s : ServerState) (hb : Heartbeat) (now : Int)
    (sh : Shard)
    (hfind : s.shards.find? (fun x => x.session_id == hb.session_id) = some sh)
    (hge : s.total_shards ≤ sh.shard_id) :
    beat s hb now = .error .noShardsAvailable := by
  simp only [beat]
  split
  · rename_i heq
    rw [hfind] at heq
    cases heq
  · rename_i sh2 heq
    rw [hfind] at heq
    injection heq with heq2
    subst heq2
    rw [if_pos hge]

/-- Witness for C10: a fleet shrunk to `total_shards = 3` still holding a
record with identity 5; its heartbeat is rejected with 401. -/
theorem beat_out_of_range_witness :
    beat ⟨[⟨5, 0, 100, none, none, none⟩], 3, none, 5, 101⟩
      ⟨100, none, none, none⟩ 7 = .error .noShardsAvailable :=
  beat_out_of_range ⟨[⟨5, 0, 100, none, none, none⟩], 3, none, 5, 101⟩
    ⟨100, none, none, none⟩ 7 ⟨5, 0, 100, none, none, none⟩ rfl (by decide)
